import Mathlib

/-!
Shallow embedding of the movie-info-search client (src/script.js, with the
duplicate variant embedded in src/README.md), together with proofs of the
frozen claims about it.

Modelling conventions:
* JavaScript objects coming from the OMDb service become Lean structures;
  a field that the service may omit (or that the code tests for truthiness)
  becomes an `Option String`, where `none` models an absent field.
* The JavaScript idiom `x || fallback` on strings is modelled by `jsOr`
  (for optional fields: absent or empty string selects the fallback) and
  `jsOrS` (for plain strings: empty string selects the fallback), because in
  JavaScript both `undefined` and the empty string are falsy.
* Fallible async functions become pure functions returning `Except String`,
  where `Except.error m` models a thrown `Error` whose `message` is `m`.
* The DOM surface touched by the code (the results container and the single
  overlay element plus the document-level key listeners) becomes explicit
  state passed through the functions.
-/

/-- Model of the JavaScript string idiom `x || fallback` applied to a field
that may be absent: both an absent field (undefined) and the empty string are
falsy, so both select the fallback. -/
def jsOr (v : Option String) (fallback : String) : String :=
  match v with
  | some s => if s = "" then fallback else s
  | none => fallback

/-- Model of the JavaScript string idiom `s || fallback` on a plain string:
the empty string is falsy and selects the fallback. -/
def jsOrS (s : String) (fallback : String) : String :=
  if s = "" then fallback else s

/-- Model of the `ok` property of a fetch Response: true exactly when the
HTTP status is in the range 200 to 299. -/
def resOk (status : Nat) : Bool :=
  200 ≤ status && status < 300

/-- Raw search-result record as returned by the OMDb search endpoint
(capitalised field names, `Poster` may be absent or the sentinel "N/A"). -/
structure RawMovie where
  imdbID : String
  Title : String
  Year : String
  Poster : Option String
  deriving Repr, DecidableEq

/-- Simplified internal movie shape produced by `toSimple`
(src/script.js lines 178-185); the empty string in `poster` signals
"no usable poster" to the render function. -/
structure SimpleMovie where
  id : String
  title : String
  year : String
  poster : String
  deriving Repr, DecidableEq

/-- Embedding of `toSimple` (src/script.js lines 178-185): normalises an
OMDb record, keeping the poster URL only when the field is truthy and not
the sentinel "N/A"; otherwise the poster becomes the empty string. -/
def toSimple (omdb : RawMovie) : SimpleMovie :=
  { id := omdb.imdbID
    title := omdb.Title
    year := omdb.Year
    poster :=
      match omdb.Poster with
      | some p => if p = "" ∨ p = "N/A" then "" else p
      | none => "" }

/-- One entry of the `Ratings` array of an OMDb detail record. -/
structure Rating where
  Source : String
  Value : String
  deriving Repr, DecidableEq

/-- Raw detail record as returned by the OMDb detail endpoint. `Ratings` is
`none` when the field is not an array (the code guards with
`Array.isArray`). `Response` and `Error` are the service-level status
fields inspected by `fetchMovieById`. -/
structure DetailMovie where
  imdbID : String
  Title : String
  Year : Option String
  Rated : Option String
  Runtime : Option String
  Genre : Option String
  Plot : Option String
  Director : Option String
  Poster : Option String
  Ratings : Option (List Rating)
  Response : Option String
  Error : Option String
  deriving Repr, DecidableEq

/-- Body of a search response: the service-level status fields and the
optional `Search` array of raw records. -/
structure SearchBody where
  Response : Option String
  Error : Option String
  Search : Option (List RawMovie)
  deriving Repr, DecidableEq

/-- Embedding of `searchMovies` (src/script.js lines 301-321), applied to
the HTTP status and parsed JSON body of the response: a non-ok status
throws a network error; a body with `Response: "False"` throws the body
`Error` message or the fallback; otherwise the `Search` array (defaulted to
empty when absent) is returned. -/
def searchMovies (status : Nat) (data : SearchBody) : Except String (List RawMovie) :=
  if resOk status = false then
    Except.error ("network error: " ++ toString status)
  else if data.Response = some "False" then
    Except.error (jsOr data.Error "Unknown OMDb error")
  else
    Except.ok (data.Search.getD [])

/-- Embedding of `fetchMovieById` (src/script.js lines 337-356), applied to
the HTTP status and parsed JSON body: a non-ok status throws a network
error; a body with `Response: "False"` throws the body `Error` message or
the detail-specific fallback; otherwise the record itself is returned. -/
def fetchMovieById (status : Nat) (data : DetailMovie) : Except String DetailMovie :=
  if resOk status = false then
    Except.error ("network error: " ++ toString status)
  else if data.Response = some "False" then
    Except.error (jsOr data.Error "Could not load details")
  else
    Except.ok data

/-- Poster element of a result card: either an img element with a src URL
and an alt text, or a placeholder div with literal text content. -/
inductive Thumb where
  | img (src : String) (alt : String)
  | placeholder (txt : String)
  deriving Repr, DecidableEq

/-- One result card as assembled by `renderResults`
(src/script.js lines 216-281): the poster element, the h2 heading text,
the meta line text, the label of the details button and the movie id that
the click handler of the button captured. -/
structure Card where
  thumb : Thumb
  heading : String
  meta : String
  buttonLabel : String
  buttonTargetId : String
  deriving Repr, DecidableEq

/-- Embedding of the per-movie card construction inside `renderResults`
(src/script.js lines 216-281): an img thumb when the normalised poster is
truthy, otherwise a placeholder div with text "No Poster"; then the title
heading, the year meta line and the "Details" button whose handler
captures the id of the movie. -/
def renderCard (m : SimpleMovie) : Card :=
  { thumb := if m.poster = "" then Thumb.placeholder "No Poster" else Thumb.img m.poster m.title
    heading := m.title
    meta := m.year
    buttonLabel := "Details"
    buttonTargetId := m.id }

/-- One child node of the results container: either the message paragraph
written by `renderMessage` or one movie card. -/
inductive ResultsNode where
  | msg (text : String)
  | card (c : Card)
  deriving Repr, DecidableEq

/-- Embedding of `renderMessage` (src/script.js lines 75-77): replaces the
whole content of the results container with one message paragraph. -/
def renderMessage (text : String) (_prior : List ResultsNode) : List ResultsNode :=
  [ResultsNode.msg text]

/-- Embedding of `renderResults` (src/script.js lines 205-283), as a
function from the incoming movie list (`none` models a falsy argument) and
the prior content of the results container to its new content: a falsy or
empty list renders the no-results message; otherwise the container is
cleared and one card per movie is appended in order, each movie first
normalised by `toSimple`. -/
def renderResults (movies : Option (List RawMovie)) (prior : List ResultsNode) :
    List ResultsNode :=
  match movies with
  | none => renderMessage "No results - try another search?" prior
  | some ms =>
    if ms.length = 0 then
      renderMessage "No results - try another search?" prior
    else
      (ms.map toSimple).foldl (fun acc m => acc ++ [ResultsNode.card (renderCard m)]) []

/-- Detail panel as assembled by `showOverlayDetails`
(src/script.js lines 490-533): the poster element, the header texts, the
three fixed pills, the plot, one rating pill per rating entry, the
director line, the IMDb line and the label of the explicit close button
present in the panel markup. -/
structure DetailPanel where
  poster : Thumb
  title : String
  year : String
  rated : String
  runtime : String
  genre : String
  plot : String
  ratingPills : List String
  director : String
  imdbLine : String
  closeLabel : String
  deriving Repr, DecidableEq

/-- Embedding of the panel construction of `showOverlayDetails`
(src/script.js lines 490-526): poster img only for a truthy non-"N/A"
poster field, JavaScript falsy fallbacks for year, rated, runtime, genre,
plot and director, and one "Source: Value" pill per entry of the ratings
array (none when the field is not an array). -/
def mkDetailPanel (data : DetailMovie) : DetailPanel :=
  { poster :=
      match data.Poster with
      | some p => if p = "" ∨ p = "N/A" then Thumb.placeholder "No poster" else Thumb.img p data.Title
      | none => Thumb.placeholder "No poster"
    title := data.Title
    year := jsOr data.Year "N/A"
    rated := jsOr data.Rated "Unrated"
    runtime := jsOr data.Runtime "N/A"
    genre := jsOr data.Genre ""
    plot := jsOr data.Plot "No plot available."
    ratingPills := (data.Ratings.getD []).map (fun rt => rt.Source ++ ": " ++ rt.Value)
    director := jsOr data.Director "Unknown"
    imdbLine := "IMDb: " ++ data.imdbID
    closeLabel := "Close" }

/-- Content node placed inside the overlay: the loading panel built by
`showOverlayLoading` (which carries only a message and has no close
button) or the detail panel built by `showOverlayDetails`. -/
inductive PanelNode where
  | loadingPanel (message : String)
  | detailPanel (p : DetailPanel)
  deriving Repr, DecidableEq

/-- Whether the panel markup contains the explicit close control: the
detail panel markup has the button with id "overlayClose"
(src/script.js line 514), the loading panel markup
(src/script.js lines 473-476) has none. -/
def panelHasCloseControl : PanelNode → Bool
  | PanelNode.detailPanel _ => true
  | PanelNode.loadingPanel _ => false

/-- State of the single overlay element: its children, its `hidden`
attribute (`none` when absent, so the element is visible exactly when this
is `none`), its `aria-hidden` attribute and the click listeners attached
to it, identified by the name of the handler function. -/
structure Overlay where
  content : List PanelNode
  hiddenAttr : Option String
  ariaHidden : Option String
  clickListeners : List String
  deriving Repr, DecidableEq

/-- The DOM surface the overlay code touches: the overlay element and the
keydown listeners attached to the document. -/
structure Dom where
  overlay : Overlay
  docKeyListeners : List String
  deriving Repr, DecidableEq

/-- Model of `EventTarget.addEventListener`: registering the same handler
function for the same event a second time is a no-op (the DOM deduplicates
identical (type, callback) pairs), otherwise the handler is appended. -/
def addListener (l : String) (ls : List String) : List String :=
  if l ∈ ls then ls else ls ++ [l]

/-- Model of `EventTarget.removeEventListener`: removes the registration of
the given handler function, a no-op when it is not registered. -/
def removeListener (l : String) (ls : List String) : List String :=
  ls.erase l

/-- Embedding of `getOverlay` (src/script.js line 370):
`document.querySelector` with selector "#overlay" returns the single
overlay element of the page. -/
def getOverlay (d : Dom) : Overlay :=
  d.overlay

/-- Model of the free binding `overlay` used by `openOverlayWith` in
src/script.js (line 383): no local or module-level `overlay` binding
exists there, so in a browser it resolves through window named access,
which maps the id "overlay" to that same single overlay element. -/
def windowNamedOverlay (d : Dom) : Overlay :=
  d.overlay

/-- Embedding of `openOverlayWith` (src/script.js lines 381-399): on the
element obtained through the free `overlay` binding, clear the content,
append the new node, remove the `hidden` attribute, set `aria-hidden` to
"false", and attach the backdrop-click listener to the overlay and the
Escape-key listener to the document. -/
def openOverlayWith (node : PanelNode) (d : Dom) : Dom :=
  let ov := windowNamedOverlay d
  { overlay :=
      { content := [node]
        hiddenAttr := none
        ariaHidden := some "false"
        clickListeners := addListener "onBackdropClick" ov.clickListeners }
    docKeyListeners := addListener "onEsc" d.docKeyListeners }

namespace Readme

/-- Embedding of the `openOverlayWith` variant embedded in src/README.md
(lines 202-210): identical steps, but the element is obtained via
`getOverlay()` instead of the free `overlay` binding. -/
def openOverlayWith (node : PanelNode) (d : Dom) : Dom :=
  let ov := getOverlay d
  { overlay :=
      { content := [node]
        hiddenAttr := none
        ariaHidden := some "false"
        clickListeners := addListener "onBackdropClick" ov.clickListeners }
    docKeyListeners := addListener "onEsc" d.docKeyListeners }

end Readme

/-- Embedding of `closeOverlay` (src/script.js lines 408-420): set the
`hidden` attribute to "true", set `aria-hidden` to "true", and detach the
backdrop-click listener from the overlay and the Escape-key listener from
the document. The content is not cleared. -/
def closeOverlay (d : Dom) : Dom :=
  let ov := getOverlay d
  { overlay :=
      { ov with
        hiddenAttr := some "true"
        ariaHidden := some "true"
        clickListeners := removeListener "onBackdropClick" ov.clickListeners }
    docKeyListeners := removeListener "onEsc" d.docKeyListeners }

/-- Embedding of `showOverlayLoading` (src/script.js lines 463-479): build
the loading panel whose message is the argument or, when that is falsy,
"Loading...", and open the overlay with it. -/
def showOverlayLoading (text : String) (d : Dom) : Dom :=
  openOverlayWith (PanelNode.loadingPanel (jsOrS text "Loading...")) d

/-- Embedding of `showOverlayDetails` (src/script.js lines 490-533): build
the detail panel from the record and open the overlay with it; the close
button inside the panel gets `closeOverlay` as click handler, modelled by
`closeButtonClick` below. -/
def showOverlayDetails (data : DetailMovie) (d : Dom) : Dom :=
  openOverlayWith (PanelNode.detailPanel (mkDetailPanel data)) d

/-- Target of a click event that reaches the overlay element: either the
overlay element itself (the backdrop) or a descendant of the content
panel. -/
inductive ClickTarget where
  | overlayItself
  | insidePanel
  deriving Repr, DecidableEq

/-- Embedding of `onBackdropClick` (src/script.js lines 431-438): close
the overlay only when the event target is the overlay element itself. -/
def onBackdropClick (t : ClickTarget) (d : Dom) : Dom :=
  match t with
  | ClickTarget.overlayItself => closeOverlay d
  | ClickTarget.insidePanel => d

/-- Embedding of `onEsc` (src/script.js lines 448-452): close the overlay
only when the pressed key is "Escape". -/
def onEsc (key : String) (d : Dom) : Dom :=
  if key = "Escape" then closeOverlay d else d

/-- Dispatch of a click event on the overlay element: the handler runs
only while it is attached. -/
def handleOverlayClick (t : ClickTarget) (d : Dom) : Dom :=
  if "onBackdropClick" ∈ d.overlay.clickListeners then onBackdropClick t d else d

/-- Dispatch of a keydown event on the document: the handler runs only
while it is attached. -/
def handleKeydown (key : String) (d : Dom) : Dom :=
  if "onEsc" ∈ d.docKeyListeners then onEsc key d else d

/-- Embedding of the click handler attached to the close button of the
detail panel (src/script.js line 532): it is `closeOverlay` itself. -/
def closeButtonClick (d : Dom) : Dom :=
  closeOverlay d

/-- Embedding of the click handler of the "Details" button
(src/script.js lines 257-272), with the outcome of the awaited
`fetchMovieById` call passed explicitly: show the loading panel, then on
success show the detail panel, and on failure show the loading panel again
with the error message or the fallback "Could not load details". -/
def detailClick (fetchResult : Except String DetailMovie) (d : Dom) : Dom :=
  let d1 := showOverlayLoading "Loading details..." d
  match fetchResult with
  | Except.ok data => showOverlayDetails data d1
  | Except.error e => showOverlayLoading (jsOrS e "Could not load details") d1

/-- Activation of the "Details" button of a card: runs `detailClick` on
the outcome of fetching the movie id the handler captured. -/
def activateCard (c : Card) (fetchFn : String → Except String DetailMovie) (d : Dom) : Dom :=
  detailClick (fetchFn c.buttonTargetId) d

/-- Model of JavaScript String.prototype.trim as called on the input value
(src/script.js line 101): strips leading and trailing whitespace. -/
def jsTrim (s : String) : String :=
  String.mk (((s.data.dropWhile Char.isWhitespace).reverse.dropWhile Char.isWhitespace).reverse)

/-- Observable outcome of one run of the form submit handler: whether the
default navigation was suppressed, which query (if any) a request was
issued for, the in-progress message displayed before the request, the
final content of the results container, and the error recorded to the
console for diagnostics. -/
structure SubmitResult where
  defaultPrevented : Bool
  issuedQuery : Option String
  displayedDuring : Option String
  finalRegion : List ResultsNode
  loggedError : Option String
  deriving Repr, DecidableEq

/-- Embedding of the form submit handler (src/script.js lines 96-123),
with the search call passed explicitly as a function from the query to its
outcome: suppress the default, trim the input; an empty trimmed query
displays the prompt and issues no request; otherwise display the
in-progress message, run the search, and either hand the movies to
`renderResults` or display the generic retry message and log the error. -/
def onSubmit (inputValue : String)
    (search : String → Except String (List RawMovie)) : SubmitResult :=
  let query := jsTrim inputValue
  if query = "" then
    { defaultPrevented := true
      issuedQuery := none
      displayedDuring := none
      finalRegion := renderMessage "Type a movie title to search!" []
      loggedError := none }
  else
    let during := "Searching for: " ++ query ++ "..."
    match search query with
    | Except.ok movies =>
      { defaultPrevented := true
        issuedQuery := some query
        displayedDuring := some during
        finalRegion := renderResults (some movies) (renderMessage during [])
        loggedError := none }
    | Except.error e =>
      { defaultPrevented := true
        issuedQuery := some query
        displayedDuring := some during
        finalRegion := renderMessage "Something went wrong - try again" (renderMessage during [])
        loggedError := some e }

/-- Overlay operation, i.e. one call into the modal controller: the two
open entry points (both of which go through `openOverlayWith`) and the
close entry point. -/
inductive OverlayOp where
  | openLoading (text : String)
  | openDetails (data : DetailMovie)
  | close
  deriving Repr, DecidableEq

/-- Interpretation of one overlay operation on the DOM state. -/
def applyOp (d : Dom) (op : OverlayOp) : Dom :=
  match op with
  | OverlayOp.openLoading text => showOverlayLoading text d
  | OverlayOp.openDetails data => showOverlayDetails data d
  | OverlayOp.close => closeOverlay d

/-- Modelled from the spec: the host page markup (index.html) is not under
src/, so the initial overlay state comes from the spec, which starts the
overlay state machine in Closed — the overlay element starts with the
`hidden` attribute present, `aria-hidden` set to "true", empty content and
no dismissal listeners attached. -/
def initDom : Dom :=
  { overlay :=
      { content := []
        hiddenAttr := some ""
        ariaHidden := some "true"
        clickListeners := [] }
    docKeyListeners := [] }

/-- State of the DOM after running a sequence of overlay operations from
the initial page state. -/
def runOps (ops : List OverlayOp) : Dom :=
  ops.foldl applyOp initDom

/-- Reachability invariant of the overlay state: either it is hidden with
no dismissal listener attached anywhere, or it is visible with exactly one
backdrop-click listener, exactly one Escape-key listener and nonempty
content. -/
def OverlayInv (d : Dom) : Prop :=
  (d.overlay.hiddenAttr ≠ none ∧ d.overlay.clickListeners = [] ∧ d.docKeyListeners = [])
  ∨ (d.overlay.hiddenAttr = none ∧ d.overlay.clickListeners = ["onBackdropClick"]
      ∧ d.docKeyListeners = ["onEsc"] ∧ d.overlay.content ≠ [])

theorem jsOr_falsy (v : Option String) (fb : String) (h : v = none ∨ v = some "") :
    jsOr v fb = fb := by
  rcases h with h | h <;> simp [jsOr, h]

theorem jsOr_truthy (v : Option String) (fb s : String) (hv : v = some s) (hs : s ≠ "") :
    jsOr v fb = s := by
  simp [jsOr, hv, hs]

theorem overlayInv_openOverlayWith (node : PanelNode) (d : Dom) (h : OverlayInv d) :
    OverlayInv (openOverlayWith node d) := by
  rcases h with ⟨_, hc, hk⟩ | ⟨_, hc, hk, _⟩ <;>
    exact Or.inr (by simp [openOverlayWith, windowNamedOverlay, addListener, hc, hk])

theorem overlayInv_closeOverlay (d : Dom) (h : OverlayInv d) :
    OverlayInv (closeOverlay d) := by
  rcases h with ⟨_, hc, hk⟩ | ⟨_, hc, hk, _⟩ <;>
    exact Or.inl (by simp [closeOverlay, getOverlay, removeListener, hc, hk])

theorem overlayInv_applyOp (d : Dom) (op : OverlayOp) (h : OverlayInv d) :
    OverlayInv (applyOp d op) := by
  cases op with
  | openLoading text => exact overlayInv_openOverlayWith _ d h
  | openDetails data => exact overlayInv_openOverlayWith _ d h
  | close => exact overlayInv_closeOverlay d h

theorem overlayInv_initDom : OverlayInv initDom := by
  exact Or.inl (by simp [initDom])

theorem overlayInv_foldl (ops : List OverlayOp) (d : Dom) (h : OverlayInv d) :
    OverlayInv (ops.foldl applyOp d) := by
  induction ops generalizing d with
  | nil => exact h
  | cons op ops ih => exact ih (applyOp d op) (overlayInv_applyOp d op h)

theorem overlayInv_runOps (ops : List OverlayOp) : OverlayInv (runOps ops) :=
  overlayInv_foldl ops initDom overlayInv_initDom

/-- C1: for every sequence of overlay operations (opens, including opening
while already open, and closes) run from the initial page state, at most
one backdrop-click listener and at most one Escape-key listener are
attached at any time, a hidden overlay has no dismissal listener attached,
a visible overlay has nonempty content, and after a close no dismissal
listener remains attached. -/
theorem overlay_listener_and_visibility_invariant (ops : List OverlayOp) :
    (runOps ops).overlay.clickListeners.count "onBackdropClick" ≤ 1 ∧
    (runOps ops).docKeyListeners.count "onEsc" ≤ 1 ∧
    ((runOps ops).overlay.hiddenAttr ≠ none →
      (runOps ops).overlay.clickListeners = [] ∧ (runOps ops).docKeyListeners = []) ∧
    ((runOps ops).overlay.hiddenAttr = none → (runOps ops).overlay.content ≠ []) ∧
    (runOps (ops ++ [OverlayOp.close])).overlay.clickListeners = [] ∧
    (runOps (ops ++ [OverlayOp.close])).docKeyListeners = [] := by
  have h := overlayInv_runOps ops
  have hclose : runOps (ops ++ [OverlayOp.close]) = closeOverlay (runOps ops) := by
    simp [runOps, applyOp]
  rcases h with ⟨hh, hc, hk⟩ | ⟨hh, hc, hk, hne⟩
  · refine ⟨by simp [hc], by simp [hk], fun _ => ⟨hc, hk⟩, fun hv => absurd hv hh, ?_, ?_⟩
    · rw [hclose]; simp [closeOverlay, getOverlay, removeListener, hc]
    · rw [hclose]; simp [closeOverlay, getOverlay, removeListener, hk]
  · refine ⟨by simp [hc], by simp [hk], fun hhid => absurd hh (by simp [hhid]), fun _ => hne, ?_, ?_⟩
    · rw [hclose]; simp [closeOverlay, getOverlay, removeListener, hc]
    · rw [hclose]; simp [closeOverlay, getOverlay, removeListener, hk]

/-- C10: the full-featured `openOverlayWith` of src/script.js, which
reaches the overlay element through the free `overlay` binding (window
named access for the element with id "overlay"), and the
`openOverlayWith` variant embedded in src/README.md, which obtains the
same element via `getOverlay()`, perform the same
clear-content, append-node, unhide, set-aria-hidden-false,
attach-two-listeners sequence on the same overlay element: they are equal
as state transformers. -/
theorem openOverlayWith_variants_equivalent (node : PanelNode) (d : Dom) :
    openOverlayWith node d = Readme.openOverlayWith node d :=
  rfl

/-- Concrete detail record used by the witness instantiations. -/
def demoDetail : DetailMovie :=
  { imdbID := "tt0372784"
    Title := "Batman Begins"
    Year := some "2005"
    Rated := some "PG-13"
    Runtime := some "140 min"
    Genre := some "Action, Crime, Drama"
    Plot := some "A young Bruce Wayne becomes Batman."
    Director := some "Christopher Nolan"
    Poster := some "https://example.test/poster.jpg"
    Ratings := some [{ Source := "Internet Movie Database", Value := "8.2/10" }]
    Response := some "True"
    Error := none }

/-- Concrete detail record with falsy fields used by the witness
instantiations. -/
def demoDetailBare : DetailMovie :=
  { imdbID := "tt0000001"
    Title := "Bare"
    Year := none
    Rated := none
    Runtime := some ""
    Genre := none
    Plot := none
    Director := none
    Poster := some "N/A"
    Ratings := none
    Response := some "True"
    Error := none }

theorem overlay_invariant_witness :
    (runOps [OverlayOp.openLoading "Loading details...",
        OverlayOp.openDetails demoDetail]).overlay.content ≠ [] := by
  have h := overlay_listener_and_visibility_invariant
    [OverlayOp.openLoading "Loading details...", OverlayOp.openDetails demoDetail]
  exact h.2.2.2.1 rfl

/-- C8: while the overlay is open with its dismissal listeners attached, a
click whose target is the backdrop itself closes it, a click on a
descendant of the content panel does not, an Escape keydown closes it, any
other key does not, the explicit close control (whose handler is
`closeOverlay`) exists in the detail panel and only there, and closing
sets both the `hidden` attribute and `aria-hidden` to "true" and detaches
both dismissal listeners. -/
theorem overlay_dismissal_transitions (d : Dom)
    (hHid : d.overlay.hiddenAttr = none)
    (hClick : d.overlay.clickListeners = ["onBackdropClick"])
    (hKey : d.docKeyListeners = ["onEsc"]) :
    handleOverlayClick ClickTarget.overlayItself d = closeOverlay d ∧
    handleOverlayClick ClickTarget.insidePanel d = d ∧
    handleKeydown "Escape" d = closeOverlay d ∧
    (∀ k, k ≠ "Escape" → handleKeydown k d = d) ∧
    closeButtonClick d = closeOverlay d ∧
    (∀ p, panelHasCloseControl (PanelNode.detailPanel p) = true) ∧
    (∀ t, panelHasCloseControl (PanelNode.loadingPanel t) = false) ∧
    (closeOverlay d).overlay.hiddenAttr = some "true" ∧
    (closeOverlay d).overlay.ariaHidden = some "true" ∧
    (closeOverlay d).overlay.clickListeners = [] ∧
    (closeOverlay d).docKeyListeners = [] := by
  refine ⟨?_, ?_, ?_, ?_, rfl, fun p => rfl, fun t => rfl, ?_, ?_, ?_, ?_⟩
  · simp [handleOverlayClick, hClick, onBackdropClick]
  · simp [handleOverlayClick, hClick, onBackdropClick]
  · simp [handleKeydown, hKey, onEsc]
  · intro k hk
    simp [handleKeydown, hKey, onEsc, hk]
  · simp [closeOverlay, getOverlay]
  · simp [closeOverlay, getOverlay]
  · simp [closeOverlay, getOverlay, removeListener, hClick]
  · simp [closeOverlay, getOverlay, removeListener, hKey]

theorem overlay_dismissal_witness :
    handleKeydown "Escape" (showOverlayDetails demoDetail initDom)
      = closeOverlay (showOverlayDetails demoDetail initDom) := by
  have h := overlay_dismissal_transitions (showOverlayDetails demoDetail initDom) rfl rfl rfl
  exact h.2.2.1

/-- C7: when the detail fetch fails while the overlay shows the loading
panel, the overlay ends up showing the loading panel with the error
message when that is nonempty and the fallback "Could not load details"
otherwise, and the overlay stays open (hidden attribute absent,
aria-hidden "false"): no automatic close on error. -/
theorem detail_fetch_failure_keeps_overlay_open (e : String) (d : Dom) :
    (showOverlayLoading "Loading details..." d).overlay.content
      = [PanelNode.loadingPanel "Loading details..."] ∧
    (detailClick (Except.error e) d).overlay.content
      = [PanelNode.loadingPanel (if e = "" then "Could not load details" else e)] ∧
    (detailClick (Except.error e) d).overlay.hiddenAttr = none ∧
    (detailClick (Except.error e) d).overlay.ariaHidden = some "false" := by
  by_cases he : e = ""
  · subst he
    exact ⟨rfl, rfl, rfl, rfl⟩
  · refine ⟨rfl, ?_, rfl, rfl⟩
    simp [detailClick, showOverlayLoading, openOverlayWith, windowNamedOverlay, jsOrS, he]

/-- C9: `showOverlayDetails` renders a single detail panel showing the
title, year, rated, runtime, genre, plot and director of the record, with
missing or empty fields falling back to the fixed defaults "N/A",
"Unrated", "N/A", the empty string, "No plot available." and "Unknown"
respectively, plus exactly one "Source: Value" rating pill per entry of
the Ratings array in array order and zero pills when Ratings is not an
array. -/
theorem showOverlayDetails_renders_all_fields (data : DetailMovie) (d : Dom) :
    (showOverlayDetails data d).overlay.content
      = [PanelNode.detailPanel (mkDetailPanel data)] ∧
    (mkDetailPanel data).title = data.Title ∧
    ((data.Year = none ∨ data.Year = some "") → (mkDetailPanel data).year = "N/A") ∧
    (∀ s, data.Year = some s → s ≠ "" → (mkDetailPanel data).year = s) ∧
    ((data.Rated = none ∨ data.Rated = some "") → (mkDetailPanel data).rated = "Unrated") ∧
    (∀ s, data.Rated = some s → s ≠ "" → (mkDetailPanel data).rated = s) ∧
    ((data.Runtime = none ∨ data.Runtime = some "") → (mkDetailPanel data).runtime = "N/A") ∧
    (∀ s, data.Runtime = some s → s ≠ "" → (mkDetailPanel data).runtime = s) ∧
    ((data.Genre = none ∨ data.Genre = some "") → (mkDetailPanel data).genre = "") ∧
    (∀ s, data.Genre = some s → s ≠ "" → (mkDetailPanel data).genre = s) ∧
    ((data.Plot = none ∨ data.Plot = some "") →
      (mkDetailPanel data).plot = "No plot available.") ∧
    (∀ s, data.Plot = some s → s ≠ "" → (mkDetailPanel data).plot = s) ∧
    ((data.Director = none ∨ data.Director = some "") →
      (mkDetailPanel data).director = "Unknown") ∧
    (∀ s, data.Director = some s → s ≠ "" → (mkDetailPanel data).director = s) ∧
    (mkDetailPanel data).ratingPills
      = (data.Ratings.getD []).map (fun rt => rt.Source ++ ": " ++ rt.Value) ∧
    (mkDetailPanel data).ratingPills.length = (data.Ratings.getD []).length ∧
    (data.Ratings = none → (mkDetailPanel data).ratingPills = []) := by
  refine ⟨rfl, rfl,
    fun h => jsOr_falsy data.Year "N/A" h,
    fun s hs hne => jsOr_truthy data.Year "N/A" s hs hne,
    fun h => jsOr_falsy data.Rated "Unrated" h,
    fun s hs hne => jsOr_truthy data.Rated "Unrated" s hs hne,
    fun h => jsOr_falsy data.Runtime "N/A" h,
    fun s hs hne => jsOr_truthy data.Runtime "N/A" s hs hne,
    fun h => jsOr_falsy data.Genre "" h,
    fun s hs hne => jsOr_truthy data.Genre "" s hs hne,
    fun h => jsOr_falsy data.Plot "No plot available." h,
    fun s hs hne => jsOr_truthy data.Plot "No plot available." s hs hne,
    fun h => jsOr_falsy data.Director "Unknown" h,
    fun s hs hne => jsOr_truthy data.Director "Unknown" s hs hne,
    rfl, by simp [mkDetailPanel], fun h => by simp [mkDetailPanel, h]⟩

theorem showOverlayDetails_fields_witness :
    (mkDetailPanel demoDetailBare).rated = "Unrated" ∧
    (mkDetailPanel demoDetailBare).runtime = "N/A" ∧
    (mkDetailPanel demoDetailBare).ratingPills = [] := by
  have h := showOverlayDetails_renders_all_fields demoDetailBare initDom
  exact ⟨h.2.2.2.2.1 (Or.inl rfl), h.2.2.2.2.2.2.1 (Or.inr rfl),
    h.2.2.2.2.2.2.2.2.2.2.2.2.2.2.2.2 rfl⟩

/-- C2: both API calls fail with the network error exactly for a non-2xx
status; on a 2xx status with a body whose Response is "False" they fail
with the nonempty body Error message when one is present and with their
respective fallbacks ("Unknown OMDb error" for search, "Could not load
details" for fetch-by-id) when the Error field is absent or empty; on a
2xx status without the failure flag both succeed. -/
theorem api_error_contract (status : Nat) (sb : SearchBody) (db : DetailMovie) :
    (resOk status = false →
      searchMovies status sb = Except.error ("network error: " ++ toString status) ∧
      fetchMovieById status db = Except.error ("network error: " ++ toString status)) ∧
    (resOk status = true → sb.Response = some "False" →
      (∀ m, sb.Error = some m → m ≠ "" → searchMovies status sb = Except.error m) ∧
      ((sb.Error = none ∨ sb.Error = some "") →
        searchMovies status sb = Except.error "Unknown OMDb error")) ∧
    (resOk status = true → db.Response = some "False" →
      (∀ m, db.Error = some m → m ≠ "" → fetchMovieById status db = Except.error m) ∧
      ((db.Error = none ∨ db.Error = some "") →
        fetchMovieById status db = Except.error "Could not load details")) ∧
    (resOk status = true → sb.Response ≠ some "False" →
      searchMovies status sb = Except.ok (sb.Search.getD [])) ∧
    (resOk status = true → db.Response ≠ some "False" →
      fetchMovieById status db = Except.ok db) := by
  refine ⟨fun hbad => ?_, fun hok hfalse => ?_, fun hok hfalse => ?_,
    fun hok htrue => ?_, fun hok htrue => ?_⟩
  · exact ⟨by simp [searchMovies, hbad], by simp [fetchMovieById, hbad]⟩
  · exact ⟨fun m hm hne => by simp [searchMovies, hok, hfalse, jsOr_truthy sb.Error _ m hm hne],
      fun h => by simp [searchMovies, hok, hfalse, jsOr_falsy sb.Error _ h]⟩
  · exact ⟨fun m hm hne => by simp [fetchMovieById, hok, hfalse, jsOr_truthy db.Error _ m hm hne],
      fun h => by simp [fetchMovieById, hok, hfalse, jsOr_falsy db.Error _ h]⟩
  · simp [searchMovies, hok, htrue]
  · simp [fetchMovieById, hok, htrue]

/-- Concrete search body with the not-found failure, used by the witness
instantiation. -/
def sbNotFound : SearchBody :=
  { Response := some "False", Error := some "Movie not found!", Search := none }

theorem api_error_contract_witness :
    searchMovies 200 sbNotFound = Except.error "Movie not found!" := by
  have h := api_error_contract 200 sbNotFound demoDetail
  exact (h.2.1 rfl rfl).1 "Movie not found!" rfl (by decide)

/-- C3: `toSimple` normalises the poster to absent (the empty string)
exactly when the raw Poster field is missing, empty or the sentinel "N/A",
and keeps any other non-empty value; the card renderer turns an absent
poster into the placeholder block with literal text "No Poster" and a
usable poster into an img element whose src is that URL. -/
theorem poster_normalization (r : RawMovie) :
    ((toSimple r).poster = "" ↔
      (r.Poster = none ∨ r.Poster = some "" ∨ r.Poster = some "N/A")) ∧
    (∀ p, r.Poster = some p → p ≠ "" → p ≠ "N/A" → (toSimple r).poster = p) ∧
    ((toSimple r).poster = "" →
      (renderCard (toSimple r)).thumb = Thumb.placeholder "No Poster") ∧
    (∀ p, (toSimple r).poster = p → p ≠ "" →
      (renderCard (toSimple r)).thumb = Thumb.img p (toSimple r).title) := by
  refine ⟨?_, ?_, ?_, ?_⟩
  · cases hr : r.Poster with
    | none => simp [toSimple, hr]
    | some p =>
      by_cases hp : p = "" ∨ p = "N/A"
      · simp [toSimple, hr, hp]
      · push_neg at hp
        simp [toSimple, hr, hp.1, hp.2]
  · intro p hp hne hna
    simp [toSimple, hp, hne, hna]
  · intro habs
    simp [renderCard, habs]
  · intro p hp hne
    rw [renderCard]
    simp [hp, hne]

/-- Concrete raw record with the sentinel poster, used by the witness
instantiations. -/
def rawNA : RawMovie :=
  { imdbID := "tt0000002", Title := "Sentinel", Year := "1999", Poster := some "N/A" }

theorem poster_normalization_witness :
    (renderCard (toSimple rawNA)).thumb = Thumb.placeholder "No Poster" := by
  have h := poster_normalization rawNA
  exact h.2.2.1 (h.1.mpr (Or.inr (Or.inr rfl)))

theorem foldl_append_card (ms : List SimpleMovie) (acc : List ResultsNode) :
    ms.foldl (fun a m => a ++ [ResultsNode.card (renderCard m)]) acc
      = acc ++ ms.map (fun m => ResultsNode.card (renderCard m)) := by
  induction ms generalizing acc with
  | nil => simp
  | cons m ms ih => simp [ih]

/-- C4: for every non-empty raw record list, `renderResults` replaces
whatever the results region held before with exactly one card per input
record, in input order; each card carries an img or the "No Poster"
placeholder, a heading with the Title of the record, a meta line with its
Year, and a button labeled "Details" whose activation runs the
detail-fetch-and-modal flow on the imdbID of that record. -/
theorem renderResults_one_card_per_record (ms : List RawMovie) (prior : List ResultsNode)
    (h : ms ≠ []) :
    renderResults (some ms) prior
      = ms.map (fun r => ResultsNode.card (renderCard (toSimple r))) ∧
    (renderResults (some ms) prior).length = ms.length ∧
    (∀ r, r ∈ ms →
      (renderCard (toSimple r)).heading = r.Title ∧
      (renderCard (toSimple r)).meta = r.Year ∧
      (renderCard (toSimple r)).buttonLabel = "Details" ∧
      (renderCard (toSimple r)).buttonTargetId = r.imdbID ∧
      ((renderCard (toSimple r)).thumb = Thumb.placeholder "No Poster"
        ∨ (renderCard (toSimple r)).thumb = Thumb.img (toSimple r).poster r.Title) ∧
      (∀ fetchFn d, activateCard (renderCard (toSimple r)) fetchFn d
          = detailClick (fetchFn r.imdbID) d)) := by
  have hmain : renderResults (some ms) prior
      = ms.map (fun r => ResultsNode.card (renderCard (toSimple r))) := by
    rw [renderResults]
    rw [if_neg (by simpa using h)]
    rw [foldl_append_card]
    simp [List.map_map, Function.comp]
  refine ⟨hmain, by simp [hmain], fun r _ => ?_⟩
  refine ⟨rfl, rfl, rfl, rfl, ?_, fun fetchFn d => rfl⟩
  by_cases hp : (toSimple r).poster = ""
  · exact Or.inl (by simp [renderCard, hp])
  · refine Or.inr ?_
    rw [renderCard]
    simp [hp]
    rfl

theorem renderResults_witness :
    renderResults (some [rawNA]) []
      = [ResultsNode.card (renderCard (toSimple rawNA))] := by
  have h := renderResults_one_card_per_record [rawNA] [] (by simp)
  exact h.1

/-- C5: a successful search with no matches is not an error — on a 2xx
status whose body lacks the failure flag and has no Search array,
`searchMovies` returns the empty list, and rendering an empty or missing
result list displays exactly the no-results message. -/
theorem no_matches_not_error (status : Nat) (sb : SearchBody) (prior : List ResultsNode) :
    (resOk status = true → sb.Response ≠ some "False" → sb.Search = none →
      searchMovies status sb = Except.ok []) ∧
    renderResults (some []) prior = [ResultsNode.msg "No results - try another search?"] ∧
    renderResults none prior = [ResultsNode.msg "No results - try another search?"] := by
  refine ⟨fun hok htrue hnone => ?_, rfl, rfl⟩
  simp [searchMovies, hok, htrue, hnone]

/-- Concrete search body of a successful search with no matches, used by
the witness instantiation. -/
def sbNoMatches : SearchBody :=
  { Response := some "True", Error := none, Search := none }

theorem no_matches_witness : searchMovies 200 sbNoMatches = Except.ok [] := by
  have h := no_matches_not_error 200 sbNoMatches []
  exact h.1 rfl (by decide) rfl

/-- C6: on every submit the default navigation is suppressed and the input
trimmed; an empty trimmed query displays the prompt message and issues no
request; a non-empty one displays the in-progress message echoing the
query and issues the search, whose movies go to the renderer on success,
while any failure displays the fixed retry message (independent of the
error, which is only recorded for diagnostics). -/
theorem submit_handler_contract (inputValue : String)
    (search : String → Except String (List RawMovie)) :
    (onSubmit inputValue search).defaultPrevented = true ∧
    (jsTrim inputValue = "" →
      (onSubmit inputValue search).finalRegion
          = [ResultsNode.msg "Type a movie title to search!"] ∧
      (onSubmit inputValue search).issuedQuery = none) ∧
    (jsTrim inputValue ≠ "" →
      (onSubmit inputValue search).displayedDuring
          = some ("Searching for: " ++ jsTrim inputValue ++ "...") ∧
      (onSubmit inputValue search).issuedQuery = some (jsTrim inputValue) ∧
      (∀ ms, search (jsTrim inputValue) = Except.ok ms →
        (onSubmit inputValue search).finalRegion
          = renderResults (some ms)
              (renderMessage ("Searching for: " ++ jsTrim inputValue ++ "...") [])) ∧
      (∀ e, search (jsTrim inputValue) = Except.error e →
        (onSubmit inputValue search).finalRegion
            = [ResultsNode.msg "Something went wrong - try again"] ∧
        (onSubmit inputValue search).loggedError = some e)) := by
  by_cases ht : jsTrim inputValue = ""
  · refine ⟨by simp [onSubmit, ht], fun _ => ?_, fun hne => absurd ht hne⟩
    exact ⟨by simp [onSubmit, ht, renderMessage], by simp [onSubmit, ht]⟩
  · cases hs : search (jsTrim inputValue) with
    | ok movies =>
      refine ⟨by simp [onSubmit, ht, hs], fun he => absurd he ht, fun _ => ?_⟩
      refine ⟨by simp [onSubmit, ht, hs], by simp [onSubmit, ht, hs], ?_, ?_⟩
      · intro ms hms
        cases hms
        simp [onSubmit, ht, hs]
      · intro e he
        cases he
    | error e =>
      refine ⟨by simp [onSubmit, ht, hs], fun he => absurd he ht, fun _ => ?_⟩
      refine ⟨by simp [onSubmit, ht, hs], by simp [onSubmit, ht, hs], ?_, ?_⟩
      · intro ms hms
        cases hms
      · intro e2 he2
        cases he2
        exact ⟨by simp [onSubmit, ht, hs, renderMessage], by simp [onSubmit, ht, hs]⟩

/-- Concrete always-failing search function used by the witness
instantiation. -/
def demoFailingSearch : String → Except String (List RawMovie) :=
  fun _ => Except.error "network error: 500"

theorem submit_handler_witness :
    (onSubmit "batman" demoFailingSearch).finalRegion
        = [ResultsNode.msg "Something went wrong - try again"] ∧
    (onSubmit "batman" demoFailingSearch).loggedError = some "network error: 500" := by
  have h := submit_handler_contract "batman" demoFailingSearch
  exact (h.2.2 (by decide)).2.2.2 "network error: 500" rfl
